import Mathlib

/-!
Shallow embedding of the sign-language interpreter loop of `src/app.py`
(`run_sign_language_interpreter`).

The mutable loop state (lines 67-70 of `app.py`) is:
  * `prediction_history` — a `deque(maxlen=5)` of label strings,
  * `last_prediction`    — the last confirmed label, or `None`,
  * `sentence`           — the accumulated text (a Python `str`, modelled as
                           a list of characters),
  * `error_message`      — the transient display string.

One loop iteration processes one camera-frame result (lines 72-124) and then
one polled key press (lines 126-147).  The frame result is one of: a read
failure (line 74, breaks the loop), no hand found (line 83 test false, the
whole detection block is skipped), a feature-count mismatch (lines 121-124),
or a detected label (lines 100-120).  Key presses are: space (accept the
confirmed symbol, lines 128-136), `s` (append a space, lines 137-142),
`b` (delete the last character, lines 143-145), `q` (quit, lines 146-147),
or no key.
-/

namespace SignApp

/-- `MAX_SENTENCE_LENGTH = 30` (line 26 of `app.py`). -/
def MAX_SENTENCE_LENGTH : Nat := 30

/-- The error string set on a feature-count mismatch (line 123). -/
def mismatchError : String := "Error: Feature count mismatch or Multiple hands detected"

/-- The error string set when the sentence length limit is reached
(lines 136 and 142). -/
def limitError : String := "Error: Sentence length limit reached"

/-- The mutable state of the interpreter loop (lines 67-70). -/
structure State where
  prediction_history : List String
  last_prediction : Option String
  sentence : List Char
  error_message : String
deriving DecidableEq, Repr

/-- Initial state: empty history, no confirmed label, empty sentence, no
error (lines 67-70). -/
def initState : State :=
  { prediction_history := [], last_prediction := none, sentence := [], error_message := "" }

/-- The per-frame result delivered to the loop body, abstracting the camera
read, the landmark detector and the classifier. -/
inductive FrameResult where
  | Detected (label : String)
  | FeatureMismatch
  | NoDetection
  | ReadFailure
deriving DecidableEq, Repr

/-- Python truthiness of `last_prediction` (line 130 `if last_prediction:`):
`None` and the empty string are falsy. -/
def truthy : Option String → Bool
  | none => false
  | some l => !(l == "")

/-- `deque(maxlen=5).append l` (line 105): when the deque already holds 5
entries the oldest (leftmost) is evicted before `l` is appended. -/
def dequeAppend5 (h : List String) (l : String) : List String :=
  if h.length == 5 then h.tail ++ [l] else h ++ [l]

/-- The confirmation test of lines 108-109:
`len(prediction_history) == 5 and all(p == predicted_label for p in
prediction_history) and predicted_label != last_prediction`. -/
def confirmCond (hist : List String) (label : String) (last : Option String) : Bool :=
  hist.length == 5 && hist.all (fun p => p == label) && !(some label == last)

/-- One frame-classification update (lines 72-124).  Returns the new state
and whether a confirmation event fired (the `play_sound_for_prediction`
call of line 110).

* `ReadFailure` (line 74-76): the loop breaks; the state is untouched.
* `NoDetection`: `results.multi_hand_landmarks` is empty, so the whole
  block guarded by line 83 is skipped and the state is untouched.
* `FeatureMismatch` (lines 121-124): the error message is set (line 84
  first clears it, line 123 overwrites it) and the history is cleared.
* `Detected label` (lines 84, 100-112): the error message is cleared
  (line 84), the label is appended to the history (line 105), and if the
  confirmation condition of lines 108-109 holds the event fires,
  `last_prediction` is set and the history is cleared (lines 110-112). -/
def processFrame (s : State) : FrameResult → State × Bool
  | .ReadFailure => (s, false)
  | .NoDetection => (s, false)
  | .FeatureMismatch =>
      ({ s with prediction_history := [], error_message := mismatchError }, false)
  | .Detected label =>
      let hist := dequeAppend5 s.prediction_history label
      if confirmCond hist label s.last_prediction then
        ({ s with prediction_history := [], last_prediction := some label,
                  error_message := "" }, true)
      else
        ({ s with prediction_history := hist, error_message := "" }, false)

/-- Whether a frame result breaks the loop: only a camera read failure does
(lines 74-76); the mismatch and no-detection branches continue. -/
def frameBreaksLoop : FrameResult → Bool
  | .ReadFailure => true
  | _ => false

/-- A user command, decoded from the polled key (lines 126-147): space,
`s`/`S`, `b`/`B`, `q`/`Q`, or no relevant key this frame. -/
inductive Command where
  | AcceptSymbol
  | AppendSpace
  | DeleteLast
  | Quit
  | NoKey
deriving DecidableEq, Repr

/-- One key-press update (lines 128-147).

* `AcceptSymbol` (space, lines 128-136): if `len(sentence) < 30`, then if
  `last_prediction` is truthy append it to the sentence, reset
  `last_prediction` to `None` and clear the history; otherwise (limit
  reached) set the limit error message.
* `AppendSpace` (`s`, lines 137-142): append `' '` if under the limit,
  else set the limit error message.
* `DeleteLast` (`b`, lines 143-145): `sentence = sentence[:-1]` and clear
  the error message.
* `Quit` (`q`) breaks the loop without touching the state; no key touches
  nothing. -/
def processKey (s : State) : Command → State
  | .AcceptSymbol =>
      if s.sentence.length < MAX_SENTENCE_LENGTH then
        if truthy s.last_prediction then
          match s.last_prediction with
          | some l =>
              { s with sentence := s.sentence ++ l.data, last_prediction := none,
                       prediction_history := [] }
          | none => s
        else s
      else { s with error_message := limitError }
  | .AppendSpace =>
      if s.sentence.length < MAX_SENTENCE_LENGTH then
        { s with sentence := s.sentence ++ [' '] }
      else { s with error_message := limitError }
  | .DeleteLast =>
      { s with sentence := s.sentence.dropLast, error_message := "" }
  | .Quit => s
  | .NoKey => s

/-- Whether a command breaks the loop: only `q` does (lines 146-147). -/
def keyBreaksLoop : Command → Bool
  | .Quit => true
  | _ => false

/-- Run a sequence of frame results through `processFrame`, collecting the
final state and the per-frame confirmation flags. -/
def runFrames (s : State) : List FrameResult → State × List Bool
  | [] => (s, [])
  | fr :: rest =>
      let step := processFrame s fr
      let tl := runFrames step.1 rest
      (tl.1, step.2 :: tl.2)

/-- An input to the loop body: either a frame result or a polled command. -/
inductive Input where
  | frame (fr : FrameResult)
  | key (k : Command)
deriving DecidableEq, Repr

/-- One loop input: frames go through `processFrame` (yielding a possible
confirmation event), commands through `processKey` (which never fires a
confirmation). -/
def stepInput (s : State) : Input → State × Bool
  | .frame fr => processFrame s fr
  | .key k => (processKey s k, false)

/-- Run a sequence of loop inputs, collecting the final state and the
per-input confirmation flags. -/
def runInputs (s : State) : List Input → State × List Bool
  | [] => (s, [])
  | i :: rest =>
      let step := stepInput s i
      let tl := runInputs step.1 rest
      (tl.1, step.2 :: tl.2)

/-! ### Helper lemmas -/

/-- A frame-classification update never touches the sentence (the
detection block of lines 83-124 reads and writes only the history, the
confirmed label and the error message). -/
theorem processFrame_sentence_eq (s : State) (fr : FrameResult) :
    (processFrame s fr).1.sentence = s.sentence := by
  cases fr with
  | Detected label =>
      simp only [processFrame]
      split <;> rfl
  | FeatureMismatch => rfl
  | NoDetection => rfl
  | ReadFailure => rfl

/-- Key equation for the space key: when the pending label is a non-empty
string and the sentence is under the limit, `AcceptSymbol` appends the
label, resets `last_prediction` and clears the history (lines 128-134). -/
theorem acceptSymbol_truthy_eq (s : State) (L : String)
    (hL : s.last_prediction = some L) (hne : L ≠ "")
    (hlen : s.sentence.length < 30) :
    processKey s Command.AcceptSymbol =
      { s with sentence := s.sentence ++ L.data, last_prediction := none,
               prediction_history := [] } := by
  have hb : (L == "") = false := by
    rw [beq_eq_false_iff_ne]
    exact hne
  have ht : truthy (some L) = true := by
    show (!(L == "")) = true
    rw [hb]
    rfl
  simp only [processKey]
  rw [hL, if_pos (show s.sentence.length < MAX_SENTENCE_LENGTH from hlen), if_pos ht]

/-! ### Theorems -/

/-- C2, counterexample: processing a `NoDetection` frame result does NOT
clear the prediction history — with prior history `["A"]` the history is
still non-empty afterwards. -/
theorem C2_counterexample :
    (processFrame { initState with prediction_history := ["A"] }
      FrameResult.NoDetection).1.prediction_history ≠ [] := by
  decide

/-- C2, amended: processing a `NoDetection` frame result leaves the whole
state unchanged (in particular the prediction history is not cleared) and
fires no confirmation event, because the block guarded by
`if results.multi_hand_landmarks:` (line 83) is skipped entirely. -/
theorem C2_noDetection_state_unchanged (s : State) :
    processFrame s FrameResult.NoDetection = (s, false) := rfl

/-- C8: a `FeatureMismatch` frame result clears the prediction history
regardless of prior contents, sets a non-empty user-visible error message,
and does not break the loop. -/
theorem C8_featureMismatch_clears_history (s : State) :
    processFrame s FrameResult.FeatureMismatch =
      ({ s with prediction_history := [], error_message := mismatchError }, false) ∧
    mismatchError ≠ "" ∧
    frameBreaksLoop FrameResult.FeatureMismatch = false :=
  ⟨rfl, by decide, rfl⟩

/-- C9: `DeleteLast` removes exactly the last character of the sentence when
it is non-empty, is a no-op on an empty sentence, and in both cases clears
the error message; it touches nothing else. -/
theorem C9_deleteLast_spec (s : State) :
    (processKey s Command.DeleteLast).sentence = s.sentence.dropLast ∧
    (processKey s Command.DeleteLast).error_message = "" ∧
    (s.sentence = [] → (processKey s Command.DeleteLast).sentence = []) ∧
    (∀ t c, s.sentence = t ++ [c] → (processKey s Command.DeleteLast).sentence = t) ∧
    (processKey s Command.DeleteLast).last_prediction = s.last_prediction ∧
    (processKey s Command.DeleteLast).prediction_history = s.prediction_history := by
  refine ⟨rfl, rfl, ?_, ?_, rfl, rfl⟩
  · intro h
    simp [processKey, h]
  · intro t c h
    simp [processKey, h]

/-- Witness for C9 at the concrete sentence `"hi"`: deleting the last
character yields `"h"`. -/
theorem C9_deleteLast_spec_witness :
    ((⟨[], none, ['h', 'i'], "e"⟩ : State).sentence = ['h'] ++ ['i']) ∧
    (processKey (⟨[], none, ['h', 'i'], "e"⟩ : State) Command.DeleteLast).sentence = ['h'] :=
  ⟨rfl, (C9_deleteLast_spec _).2.2.2.1 ['h'] 'i' rfl⟩

/-- C7: when the sentence already holds 30 characters, both `AcceptSymbol`
and `AppendSpace` leave the sentence unchanged and set the (non-empty)
length-limit error message. -/
theorem C7_full_sentence_commands_error (s : State) (h : s.sentence.length = 30) :
    (processKey s Command.AcceptSymbol).sentence = s.sentence ∧
    (processKey s Command.AcceptSymbol).error_message = limitError ∧
    (processKey s Command.AppendSpace).sentence = s.sentence ∧
    (processKey s Command.AppendSpace).error_message = limitError ∧
    limitError ≠ "" := by
  refine ⟨?_, ?_, ?_, ?_, by decide⟩ <;>
    simp [processKey, MAX_SENTENCE_LENGTH, h]

/-- Witness for C7 at a concrete 30-character sentence. -/
theorem C7_full_sentence_commands_error_witness :
    ((⟨[], some "A", List.replicate 30 'x', ""⟩ : State).sentence.length = 30) ∧
    (processKey (⟨[], some "A", List.replicate 30 'x', ""⟩ : State)
      Command.AcceptSymbol).error_message = limitError :=
  ⟨rfl,
    (C7_full_sentence_commands_error (⟨[], some "A", List.replicate 30 'x', ""⟩ : State)
      rfl).2.1⟩

/-- C10: when the pending confirmed label is a non-empty string `L` and the
sentence holds fewer than 30 characters, `AcceptSymbol` appends the whole
string `L` in one command, so the sentence length grows by `L.length` —
more than 1 for a multi-character label. -/
theorem C10_acceptSymbol_appends_whole_label (s : State) (L : String)
    (hL : s.last_prediction = some L) (hne : L ≠ "")
    (hlen : s.sentence.length < 30) :
    (processKey s Command.AcceptSymbol).sentence = s.sentence ++ L.data ∧
    (processKey s Command.AcceptSymbol).sentence.length = s.sentence.length + L.length := by
  rw [acceptSymbol_truthy_eq s L hL hne hlen]
  refine ⟨rfl, ?_⟩
  show (s.sentence ++ L.data).length = s.sentence.length + L.length
  rw [List.length_append]
  rfl

/-- Witness for C10 with the two-character label `"AB"`: one `AcceptSymbol`
grows the sentence from 1 to 3 characters. -/
theorem C10_acceptSymbol_appends_whole_label_witness :
    ((⟨[], some "AB", ['h'], ""⟩ : State).last_prediction = some "AB") ∧
    (processKey (⟨[], some "AB", ['h'], ""⟩ : State) Command.AcceptSymbol).sentence.length
      = 1 + "AB".length :=
  ⟨rfl,
    (C10_acceptSymbol_appends_whole_label (⟨[], some "AB", ['h'], ""⟩ : State) "AB" rfl
      (by decide) (by decide)).2⟩

/-- C6, counterexample: for the (falsy) empty-string label, `AcceptSymbol`
neither clears `last_prediction` to `none` nor clears the prediction
history, because Python's `if last_prediction:` (line 130) treats the empty
string as false. -/
theorem C6_counterexample :
    (processKey (⟨["x"], some "", ['h'], ""⟩ : State)
      Command.AcceptSymbol).last_prediction ≠ none ∧
    (processKey (⟨["x"], some "", ['h'], ""⟩ : State)
      Command.AcceptSymbol).prediction_history ≠ [] := by
  decide

/-- C6, amended: when the pending confirmed label `L` is NON-EMPTY and the
sentence holds fewer than 30 characters, `AcceptSymbol` appends `L` to the
sentence, resets `last_prediction` to `none`, clears the prediction
history, and leaves the error message (and everything else) unchanged. -/
theorem C6_acceptSymbol_confirmed_spec (s : State) (L : String)
    (hL : s.last_prediction = some L) (hne : L ≠ "")
    (hlen : s.sentence.length < 30) :
    processKey s Command.AcceptSymbol =
      { s with sentence := s.sentence ++ L.data, last_prediction := none,
               prediction_history := [] } :=
  acceptSymbol_truthy_eq s L hL hne hlen

/-- Witness for C6, realising the spec scenario: five `Detected "A"` frames
from the initial state confirm `"A"` (history cleared), and `AcceptSymbol`
then yields sentence `"A"` with `last_prediction = none`. -/
theorem C6_acceptSymbol_confirmed_spec_witness :
    (runFrames initState (List.replicate 5 (FrameResult.Detected "A"))).1 =
      (⟨[], some "A", [], ""⟩ : State) ∧
    processKey (⟨[], some "A", [], ""⟩ : State) Command.AcceptSymbol =
      (⟨[], none, ['A'], ""⟩ : State) :=
  ⟨by decide, by
    rw [C6_acceptSymbol_confirmed_spec (⟨[], some "A", [], ""⟩ : State) "A" rfl
      (by decide) (by decide)]
    rfl⟩

/-- C5, counterexample: `len(Sentence) ≤ 30` is not an invariant — from a
29-character sentence with pending two-character label `"AB"`,
`AcceptSymbol` produces a 31-character sentence. -/
theorem C5_counterexample :
    ((⟨[], some "AB", List.replicate 29 'x', ""⟩ : State).sentence.length ≤ 30) ∧
    ¬ ((processKey (⟨[], some "AB", List.replicate 29 'x', ""⟩ : State)
        Command.AcceptSymbol).sentence.length ≤ 30) := by
  decide

/-- C5, amended: `len(Sentence) ≤ 30` holds initially and is preserved by
every frame-classification update and by `AppendSpace`, `DeleteLast`,
`Quit` and no-key iterations; `AcceptSymbol` preserves it only under the
extra assumption that the pending confirmed label has at most one
character (in general it guarantees just `≤ 29 + L.length`). -/
theorem C5_sentence_bound_invariant (s : State) (h : s.sentence.length ≤ 30) :
    initState.sentence.length ≤ 30 ∧
    (∀ fr, (processFrame s fr).1.sentence.length ≤ 30) ∧
    (processKey s Command.AppendSpace).sentence.length ≤ 30 ∧
    (processKey s Command.DeleteLast).sentence.length ≤ 30 ∧
    (processKey s Command.Quit).sentence.length ≤ 30 ∧
    (processKey s Command.NoKey).sentence.length ≤ 30 ∧
    ((∀ L, s.last_prediction = some L → L.length ≤ 1) →
      (processKey s Command.AcceptSymbol).sentence.length ≤ 30) := by
  refine ⟨by decide, ?_, ?_, ?_, h, h, ?_⟩
  · intro fr
    rw [processFrame_sentence_eq]
    exact h
  · by_cases hlt : s.sentence.length < MAX_SENTENCE_LENGTH
    · have hlt30 : s.sentence.length < 30 := hlt
      simp only [processKey, if_pos hlt]
      show (s.sentence ++ [' ']).length ≤ 30
      rw [List.length_append, List.length_singleton]
      omega
    · simpa [processKey, hlt] using h
  · have hd : s.sentence.dropLast.length ≤ s.sentence.length := by
      rw [List.length_dropLast]
      omega
    exact le_trans hd h
  · intro hlab
    by_cases hlt : s.sentence.length < MAX_SENTENCE_LENGTH
    · cases hlp : s.last_prediction with
      | none => simpa [processKey, hlt, hlp, truthy] using h
      | some l =>
          by_cases hl0 : l = ""
          · simpa [processKey, hlt, hlp, truthy, hl0] using h
          · have hlen1 : l.data.length ≤ 1 := hlab l hlp
            have hlt30 : s.sentence.length < 30 := hlt
            rw [acceptSymbol_truthy_eq s l hlp hl0 hlt30]
            show (s.sentence ++ l.data).length ≤ 30
            rw [List.length_append]
            omega
    · simpa [processKey, hlt] using h

/-- Witness for C5 at a concrete state with a single-character pending
label. -/
theorem C5_sentence_bound_invariant_witness :
    ((⟨[], some "A", ['h'], ""⟩ : State).sentence.length ≤ 30) ∧
    (processKey (⟨[], some "A", ['h'], ""⟩ : State)
      Command.AcceptSymbol).sentence.length ≤ 30 :=
  ⟨by decide,
    (C5_sentence_bound_invariant (⟨[], some "A", ['h'], ""⟩ : State) (by decide)).2.2.2.2.2.2
      (by intro L hL; injection hL with h; subst h; decide)⟩

/-- C1: from any state with empty prediction history whose last confirmed
label differs from `L`, five consecutive `Detected L` frame results fire
exactly one confirmation event, exactly at the fifth frame; afterwards the
confirmed label is `L` and the history is empty again. -/
theorem C1_five_identical_confirm_once (s : State) (L : String)
    (hh : s.prediction_history = []) (hl : s.last_prediction ≠ some L) :
    (runFrames s [FrameResult.Detected L, FrameResult.Detected L, FrameResult.Detected L,
        FrameResult.Detected L, FrameResult.Detected L]).2 =
      [false, false, false, false, true] ∧
    (runFrames s [FrameResult.Detected L, FrameResult.Detected L, FrameResult.Detected L,
        FrameResult.Detected L, FrameResult.Detected L]).1.last_prediction = some L ∧
    (runFrames s [FrameResult.Detected L, FrameResult.Detected L, FrameResult.Detected L,
        FrameResult.Detected L, FrameResult.Detected L]).1.prediction_history = [] := by
  obtain ⟨hist, lp, sen, err⟩ := s
  change hist = [] at hh
  change lp ≠ some L at hl
  subst hh
  have hb : (some L == lp) = false := by
    rw [beq_eq_false_iff_ne]
    exact Ne.symm hl
  simp [runFrames, processFrame, dequeAppend5, confirmCond, hb]

/-- Witness for C1 from the initial state with label `"A"`. -/
theorem C1_five_identical_confirm_once_witness :
    (initState.prediction_history = []) ∧
    (runFrames initState [FrameResult.Detected "A", FrameResult.Detected "A",
        FrameResult.Detected "A", FrameResult.Detected "A", FrameResult.Detected "A"]).2 =
      [false, false, false, false, true] :=
  ⟨rfl, (C1_five_identical_confirm_once initState "A" rfl (by decide)).1⟩

/-- C3, counterexample: after `"A"` is confirmed, one `Detected "B"` frame
followed by five `Detected "A"` frames fires NO confirmation event at all —
the single intervening different label does not re-enable confirming
`"A"`, because `last_prediction` is still `"A"` when the history next
becomes unanimous. -/
theorem C3_counterexample :
    (runFrames (⟨[], some "A", [], ""⟩ : State)
      [FrameResult.Detected "B", FrameResult.Detected "A", FrameResult.Detected "A",
       FrameResult.Detected "A", FrameResult.Detected "A", FrameResult.Detected "A"]).2 =
      [false, false, false, false, false, false] := by
  decide

/-- C3, amended: an intervening different label re-enables confirmation of
`L` only by being confirmed itself: from a state with `LastConfirmed = L`
and empty history, five `Detected L'` frames (`L' ≠ L`) confirm `L'`, and
five further `Detected L` frames then fire a second confirmation event for
`L`. -/
theorem C3_reconfirm_after_other_label_confirmed (s : State) (L Lp : String)
    (hh : s.prediction_history = []) (hl : s.last_prediction = some L)
    (hne : Lp ≠ L) :
    (runFrames s [FrameResult.Detected Lp, FrameResult.Detected Lp, FrameResult.Detected Lp,
        FrameResult.Detected Lp, FrameResult.Detected Lp, FrameResult.Detected L,
        FrameResult.Detected L, FrameResult.Detected L, FrameResult.Detected L,
        FrameResult.Detected L]).2 =
      [false, false, false, false, true, false, false, false, false, true] ∧
    (runFrames s [FrameResult.Detected Lp, FrameResult.Detected Lp, FrameResult.Detected Lp,
        FrameResult.Detected Lp, FrameResult.Detected Lp, FrameResult.Detected L,
        FrameResult.Detected L, FrameResult.Detected L, FrameResult.Detected L,
        FrameResult.Detected L]).1.last_prediction = some L := by
  obtain ⟨hist, lp, sen, err⟩ := s
  change hist = [] at hh
  change lp = some L at hl
  subst hh
  subst hl
  have hb1 : (some Lp == some L) = false := by
    rw [beq_eq_false_iff_ne]
    simp [hne]
  have hb2 : (some L == some Lp) = false := by
    rw [beq_eq_false_iff_ne]
    simp [Ne.symm hne]
  simp [runFrames, processFrame, dequeAppend5, confirmCond, hb1, hb2]

/-- Witness for C3 with `L = "A"`, `L' = "B"`. -/
theorem C3_reconfirm_after_other_label_confirmed_witness :
    ((⟨[], some "A", [], ""⟩ : State).last_prediction = some "A") ∧
    (runFrames (⟨[], some "A", [], ""⟩ : State)
      [FrameResult.Detected "B", FrameResult.Detected "B", FrameResult.Detected "B",
       FrameResult.Detected "B", FrameResult.Detected "B", FrameResult.Detected "A",
       FrameResult.Detected "A", FrameResult.Detected "A", FrameResult.Detected "A",
       FrameResult.Detected "A"]).2 =
      [false, false, false, false, true, false, false, false, false, true] :=
  ⟨rfl,
    (C3_reconfirm_after_other_label_confirmed (⟨[], some "A", [], ""⟩ : State) "A" "B"
      rfl rfl (by decide)).1⟩

/-- The side condition of C4: an input is either a frame result that is not
a `Detected` with a label different from `L`, or a command other than
`AcceptSymbol`. -/
def allowedNoRetrigger (L : String) : Input → Bool
  | .frame (.Detected l) => l == L
  | .frame _ => true
  | .key Command.AcceptSymbol => false
  | .key _ => true

/-- A single allowed input (in the sense of `allowedNoRetrigger`) keeps the
confirmed label unchanged and fires no confirmation event. -/
theorem stepInput_preserves_confirmed (s : State) (L : String) (i : Input)
    (hl : s.last_prediction = some L) (hi : allowedNoRetrigger L i = true) :
    (stepInput s i).1.last_prediction = some L ∧ (stepInput s i).2 = false := by
  cases i with
  | frame fr =>
      cases fr with
      | Detected l =>
          have hlL : l = L := by
            simpa [allowedNoRetrigger] using hi
          subst hlL
          have hc : confirmCond (dequeAppend5 s.prediction_history l) l
              (some l) = false := by
            unfold confirmCond
            simp
          simp [stepInput, processFrame, hc, hl]
      | FeatureMismatch => exact ⟨hl, rfl⟩
      | NoDetection => exact ⟨hl, rfl⟩
      | ReadFailure => exact ⟨hl, rfl⟩
  | key k =>
      cases k with
      | AcceptSymbol => simp [allowedNoRetrigger] at hi
      | AppendSpace =>
          refine ⟨?_, rfl⟩
          simp only [stepInput, processKey]
          split <;> exact hl
      | DeleteLast => exact ⟨hl, rfl⟩
      | Quit => exact ⟨hl, rfl⟩
      | NoKey => exact ⟨hl, rfl⟩

/-- C4: once `L` is confirmed (`last_prediction = some L`), no confirmation
event ever fires across any sequence of loop inputs that contains neither a
`Detected` frame with a label different from `L` nor an `AcceptSymbol`
command — even if the sequence contains further unanimous runs of five
`Detected L` frames; moreover the confirmed label stays `L`. -/
theorem C4_no_retrigger_without_intervention (L : String) (inputs : List Input) (s : State)
    (hl : s.last_prediction = some L)
    (hall : ∀ i ∈ inputs, allowedNoRetrigger L i = true) :
    (runInputs s inputs).1.last_prediction = some L ∧
    ∀ b ∈ (runInputs s inputs).2, b = false := by
  induction inputs generalizing s with
  | nil => exact ⟨hl, by simp [runInputs]⟩
  | cons i rest ih =>
      have hi : allowedNoRetrigger L i = true := hall i (by simp)
      have hstep := stepInput_preserves_confirmed s L i hl hi
      have hrest := ih (stepInput s i).1 hstep.1 (fun j hj => hall j (by simp [hj]))
      refine ⟨by simpa [runInputs] using hrest.1, ?_⟩
      intro b hb
      simp only [runInputs, List.mem_cons] at hb
      rcases hb with hb | hb
      · rw [hb]
        exact hstep.2
      · exact hrest.2 b hb

/-- Witness for C4: with `"A"` confirmed, a trace holding a no-detection, a
mismatch, an `AppendSpace`, a `DeleteLast` and a full second unanimous run
of five `Detected "A"` frames fires no confirmation event. -/
theorem C4_no_retrigger_without_intervention_witness :
    ((⟨[], some "A", [], ""⟩ : State).last_prediction = some "A") ∧
    (∀ b ∈ (runInputs (⟨[], some "A", [], ""⟩ : State)
        [Input.frame FrameResult.NoDetection, Input.frame FrameResult.FeatureMismatch,
         Input.key Command.AppendSpace, Input.key Command.DeleteLast,
         Input.frame (FrameResult.Detected "A"), Input.frame (FrameResult.Detected "A"),
         Input.frame (FrameResult.Detected "A"), Input.frame (FrameResult.Detected "A"),
         Input.frame (FrameResult.Detected "A")]).2, b = false) :=
  ⟨rfl,
    (C4_no_retrigger_without_intervention "A"
      [Input.frame FrameResult.NoDetection, Input.frame FrameResult.FeatureMismatch,
       Input.key Command.AppendSpace, Input.key Command.DeleteLast,
       Input.frame (FrameResult.Detected "A"), Input.frame (FrameResult.Detected "A"),
       Input.frame (FrameResult.Detected "A"), Input.frame (FrameResult.Detected "A"),
       Input.frame (FrameResult.Detected "A")]
      (⟨[], some "A", [], ""⟩ : State) rfl (by decide)).2⟩

end SignApp
